import Mathlib

/-!
Verification of the prompt-injection challenge web application (`main.py`).

The application keeps a single in-memory record (`app_data`) holding the
admin password hash, the challenge password hash and the current secret,
and exposes JSON handlers for admin login, configuration update, challenge
login, prompt relay (with credential rotation against an external model)
and secret verification.

The external model call is abstracted as a function from the API key tried
to a classified outcome (success with text, rate-limited, other error);
the werkzeug password hashing library is modelled as a deterministic
injective tagging function, matching its contract that `check_password_hash`
accepts exactly the password that was hashed.
-/

/-- Python truthiness of an optional string (as in `if not password:` after
`data.get(...)`: `none` and the empty string are falsy). -/
def truthy (o : Option String) : Bool :=
  match o with
  | none => false
  | some s => s != ""

/-- Model of werkzeug `generate_password_hash`: a deterministic injective
tagging of the plaintext (the real library salts; its contract, which is all
the application relies on, is that checking recovers exactly the hashed
password). -/
def generate_password_hash (p : String) : String :=
  "pbkdf2:" ++ p

/-- Model of werkzeug `check_password_hash`. -/
def check_password_hash (h p : String) : Bool :=
  h == generate_password_hash p

/-- The in-memory `app_data` record of `main.py`. -/
structure AppData where
  admin_password_hash : String
  challenge_password_hash : String
  secret_key : String
deriving DecidableEq

/-- The hardcoded defaults `app_data` is initialised with. -/
def init_app_data : AppData :=
  { admin_password_hash := generate_password_hash "admin123"
  , challenge_password_hash := generate_password_hash "challenge123"
  , secret_key := "SECRET_KEY_IS_SAFE" }

/-- A JSON body with a `success` flag and a `message`, plus the HTTP status. -/
structure ApiResult where
  success : Bool
  message : String
  status : Nat
deriving DecidableEq

/-- Handler for POST `/api/admin/login`. -/
def admin_login (st : AppData) (password : Option String) : ApiResult :=
  if truthy password = false then
    ⟨false, "Password is required.", 400⟩
  else if check_password_hash st.admin_password_hash (password.getD "") then
    ⟨true, "Admin login successful.", 200⟩
  else
    ⟨false, "Invalid admin password.", 401⟩

/-- Handler for POST `/api/challenge/login`. -/
def challenge_login (st : AppData) (password : Option String) : ApiResult :=
  if truthy password = false then
    ⟨false, "Password is required.", 400⟩
  else if check_password_hash st.challenge_password_hash (password.getD "") then
    ⟨true, "Challenge access granted.", 200⟩
  else
    ⟨false, "Incorrect password.", 401⟩

/-- Handler for POST `/api/admin/config`: returns the updated store and the
response. -/
def update_config (st : AppData) (secret password : Option String) :
    AppData × ApiResult :=
  let st1 := if truthy secret then { st with secret_key := secret.getD "" } else st
  let st2 :=
    if truthy password then
      { st1 with challenge_password_hash := generate_password_hash (password.getD "") }
    else st1
  (st2, ⟨true, "Configuration updated successfully.", 200⟩)

/-- The live secret read (`app_data['secret_key']`). -/
def current_secret (st : AppData) : String :=
  st.secret_key

/-- Handler for POST `/api/challenge/verify`. A missing `secret` field
(`none`) never equals the stored string, as `None == str` is false in
Python. -/
def verify_secret (st : AppData) (submitted : Option String) : ApiResult :=
  if submitted == some st.secret_key then
    ⟨true, "Congratulations! You have successfully found the secret.", 200⟩
  else
    ⟨false, "That is not the correct secret. Please try again.", 200⟩

/-- Classified outcome of one attempt against the external model with a
given API key: the produced text, a `ResourceExhausted` (rate-limit)
exception, or any other exception. -/
inductive ModelOutcome where
  | success (text : String)
  | rateLimited
  | otherError
deriving DecidableEq

/-- Response body and status of the prompt relay handler. -/
structure PromptResult where
  response : String
  status : Nat
deriving DecidableEq

def trouble_message : String :=
  "Sorry, I\x27m having trouble thinking right now due to an unexpected issue."

def high_demand_message : String :=
  "Sorry, our service is experiencing high demand right now. Please try again in a moment."

def not_configured_message : String :=
  "Server-side error: The AI model is not configured."

/-- `available_keys`: the environment candidates (primary key, fallback key)
filtered for truthiness, in order. -/
def available_keys (primary fallback : Option String) : List String :=
  ([primary, fallback].filter truthy).filterMap id

/-- The credential loop of `handle_prompt`: returns the final value of
`ai_response`. On success the text is taken and the loop breaks; on a
rate-limit the next key is tried; on any other error `ai_response` is set to
the apology message and the loop breaks. -/
def try_keys (attempt : String → ModelOutcome) : List String → Option String
  | [] => none
  | k :: rest =>
    match attempt k with
    | ModelOutcome.success t => some t
    | ModelOutcome.rateLimited => try_keys attempt rest
    | ModelOutcome.otherError => some trouble_message

/-- Handler for POST `/api/challenge/prompt`. `attempt` abstracts the
external model call with one key (the prompt and system instruction are
fixed for the request). After the loop, `if ai_response:` selects the 200
branch exactly when `ai_response` is a non-empty string. -/
def handle_prompt (st : AppData) (prompt primary fallback : Option String)
    (attempt : String → ModelOutcome) : PromptResult :=
  if truthy prompt = false then
    ⟨"Please provide a prompt.", 400⟩
  else
    let keys := available_keys primary fallback
    if keys = [] then
      ⟨not_configured_message, 500⟩
    else
      let ai := try_keys attempt keys
      if truthy ai then
        ⟨ai.getD "", 200⟩
      else
        ⟨high_demand_message, 503⟩

/-! ## Helper lemmas -/

theorem truthy_some_iff (s : String) : truthy (some s) = true ↔ s ≠ "" := by
  simp [truthy]

theorem try_keys_rl_prefix (attempt : String → ModelOutcome) (pre rest : List String)
    (hpre : ∀ j ∈ pre, attempt j = ModelOutcome.rateLimited) :
    try_keys attempt (pre ++ rest) = try_keys attempt rest := by
  induction pre with
  | nil => rfl
  | cons k ks ih =>
    have hk : attempt k = ModelOutcome.rateLimited := hpre k (List.mem_cons_self k ks)
    have hks : ∀ j ∈ ks, attempt j = ModelOutcome.rateLimited :=
      fun j hj => hpre j (List.mem_cons_of_mem k hj)
    simp [try_keys, hk, ih hks]

theorem try_keys_all_rl (attempt : String → ModelOutcome) (ks : List String)
    (h : ∀ j ∈ ks, attempt j = ModelOutcome.rateLimited) :
    try_keys attempt ks = none := by
  induction ks with
  | nil => rfl
  | cons k rest ih =>
    have hk : attempt k = ModelOutcome.rateLimited := h k (List.mem_cons_self k rest)
    simp [try_keys, hk, ih (fun j hj => h j (List.mem_cons_of_mem k hj))]

/-! ## Claim theorems -/

/-- Claim C1, counterexample: with a non-empty prompt, one configured
credential, and an attempt failing with an `other` (non-rate-limit) error,
the handler returns the soft apology message with status 200, not 500 as the
claim states. -/
theorem C1_counterexample :
    (handle_prompt init_app_data (some "hello") (some "KEY_A") none
        (fun _ => ModelOutcome.otherError)).response = trouble_message ∧
    (handle_prompt init_app_data (some "hello") (some "KEY_A") none
        (fun _ => ModelOutcome.otherError)).status = 200 ∧
    (handle_prompt init_app_data (some "hello") (some "KEY_A") none
        (fun _ => ModelOutcome.otherError)).status ≠ 500 := by
  refine ⟨rfl, rfl, by decide⟩

/-- Claim C1 (amended): with a non-empty prompt, if the credential loop
reaches a credential (every earlier one rate-limited) whose attempt fails
with a non-rate-limit error, the handler stops trying further credentials
(the conclusion holds for every behaviour of `attempt` on the remaining
keys) and returns the soft apology message with status 200. -/
theorem C1_soft_error_status (st : AppData) (prompt primary fallback : Option String)
    (attempt : String → ModelOutcome)
    (hprompt : truthy prompt = true)
    (pre : List String) (k : String) (post : List String)
    (hsplit : available_keys primary fallback = pre ++ k :: post)
    (hpre : ∀ j ∈ pre, attempt j = ModelOutcome.rateLimited)
    (hk : attempt k = ModelOutcome.otherError) :
    handle_prompt st prompt primary fallback attempt = ⟨trouble_message, 200⟩ := by
  have hkeys : available_keys primary fallback ≠ [] := by
    rw [hsplit]; simp
  have hai : try_keys attempt (available_keys primary fallback) = some trouble_message := by
    rw [hsplit, try_keys_rl_prefix attempt pre _ hpre]
    simp [try_keys, hk]
  have htm : truthy (some trouble_message) = true := by decide
  simp only [handle_prompt, hprompt, hkeys, hai, htm, Bool.true_eq_false,
    if_false, if_true, ite_false, ite_true, Option.getD_some]

theorem C1_soft_error_status_witness :
    handle_prompt init_app_data (some "hello") (some "KEY_A") (some "KEY_B")
        (fun key => if key == "KEY_A" then ModelOutcome.otherError
                    else ModelOutcome.success "later text") =
      ⟨trouble_message, 200⟩ :=
  C1_soft_error_status init_app_data (some "hello") (some "KEY_A") (some "KEY_B")
    (fun key => if key == "KEY_A" then ModelOutcome.otherError
                else ModelOutcome.success "later text")
    (by decide) [] "KEY_A" ["KEY_B"] (by decide)
    (by intro j hj; simp at hj) (by decide)

/-- Claim C2: with a non-empty prompt, if the primary credential is
configured and rate-limited and the fallback credential is configured and
succeeds with non-empty text, the response carries the fallback text with
status 200; no credential after the succeeding one exists to be attempted. -/
theorem C2_fallback_success (st : AppData) (prompt : Option String) (p f t : String)
    (attempt : String → ModelOutcome)
    (hprompt : truthy prompt = true)
    (hp : p ≠ "") (hf : f ≠ "")
    (hrl : attempt p = ModelOutcome.rateLimited)
    (hsucc : attempt f = ModelOutcome.success t) (ht : t ≠ "") :
    handle_prompt st prompt (some p) (some f) attempt = ⟨t, 200⟩ := by
  have hp' : (p != "") = true := by simpa [bne_iff_ne] using hp
  have hf' : (f != "") = true := by simpa [bne_iff_ne] using hf
  have hkeys : available_keys (some p) (some f) = [p, f] := by
    simp [available_keys, List.filter, truthy, hp', hf']
  have hai : try_keys attempt [p, f] = some t := by
    simp [try_keys, hrl, hsucc]
  have htt : truthy (some t) = true := (truthy_some_iff t).mpr ht
  simp only [handle_prompt, hprompt, hkeys, hai, htt, Bool.true_eq_false,
    ite_false, ite_true, Option.getD_some]
  simp

theorem C2_fallback_success_witness :
    handle_prompt init_app_data (some "hello") (some "KEY_A") (some "KEY_B")
        (fun key => if key == "KEY_A" then ModelOutcome.rateLimited
                    else ModelOutcome.success "fallback text") =
      ⟨"fallback text", 200⟩ :=
  C2_fallback_success init_app_data (some "hello") "KEY_A" "KEY_B" "fallback text"
    (fun key => if key == "KEY_A" then ModelOutcome.rateLimited
                else ModelOutcome.success "fallback text")
    (by decide) (by decide) (by decide) (by decide) (by decide) (by decide)

/-- Claim C3: with a non-empty prompt and a non-empty credential list, if
every configured credential is rate-limited, the handler returns status 503
with the high-demand message. -/
theorem C3_all_rate_limited (st : AppData) (prompt primary fallback : Option String)
    (attempt : String → ModelOutcome)
    (hprompt : truthy prompt = true)
    (hne : available_keys primary fallback ≠ [])
    (hall : ∀ k ∈ available_keys primary fallback, attempt k = ModelOutcome.rateLimited) :
    handle_prompt st prompt primary fallback attempt = ⟨high_demand_message, 503⟩ := by
  have hai : try_keys attempt (available_keys primary fallback) = none :=
    try_keys_all_rl attempt _ hall
  simp only [handle_prompt, hprompt, hne, hai, Bool.true_eq_false,
    ite_false, ite_true]
  simp [truthy]

theorem C3_all_rate_limited_witness :
    handle_prompt init_app_data (some "hello") (some "KEY_A") (some "KEY_B")
        (fun _ => ModelOutcome.rateLimited) =
      ⟨high_demand_message, 503⟩ :=
  C3_all_rate_limited init_app_data (some "hello") (some "KEY_A") (some "KEY_B")
    (fun _ => ModelOutcome.rateLimited)
    (by decide) (by decide) (by intro k hk; rfl)

/-- Claim C8: with a non-empty prompt, if both credential environment
variables are absent or empty, the handler returns status 500 with the
not-configured message, for every behaviour of the model call (so no model
call is attempted). -/
theorem C8_not_configured (st : AppData) (prompt primary fallback : Option String)
    (attempt : String → ModelOutcome)
    (hprompt : truthy prompt = true)
    (hp : truthy primary = false) (hf : truthy fallback = false) :
    handle_prompt st prompt primary fallback attempt =
      ⟨not_configured_message, 500⟩ := by
  have hkeys : available_keys primary fallback = [] := by
    simp [available_keys, List.filter, hp, hf]
  simp only [handle_prompt, hprompt, hkeys, Bool.true_eq_false,
    ite_false, ite_true]

theorem C8_not_configured_witness :
    handle_prompt init_app_data (some "hello") none (some "")
        (fun _ => ModelOutcome.success "never reached") =
      ⟨not_configured_message, 500⟩ :=
  C8_not_configured init_app_data (some "hello") none (some "")
    (fun _ => ModelOutcome.success "never reached")
    (by decide) (by decide) (by decide)

/-- Claim C9: with a non-empty prompt, if the credential loop reaches a
credential (every earlier one rate-limited) whose attempt succeeds with the
empty string as text, the handler does not return that success: it takes the
exhaustion branch and returns status 503 with the high-demand message. -/
theorem C9_empty_text_503 (st : AppData) (prompt primary fallback : Option String)
    (attempt : String → ModelOutcome)
    (hprompt : truthy prompt = true)
    (pre : List String) (k : String) (post : List String)
    (hsplit : available_keys primary fallback = pre ++ k :: post)
    (hpre : ∀ j ∈ pre, attempt j = ModelOutcome.rateLimited)
    (hk : attempt k = ModelOutcome.success "") :
    handle_prompt st prompt primary fallback attempt = ⟨high_demand_message, 503⟩ := by
  have hkeys : available_keys primary fallback ≠ [] := by
    rw [hsplit]; simp
  have hai : try_keys attempt (available_keys primary fallback) = some "" := by
    rw [hsplit, try_keys_rl_prefix attempt pre _ hpre]
    simp [try_keys, hk]
  have hem : truthy (some "") = false := by decide
  simp only [handle_prompt, hprompt, hkeys, hai, hem, Bool.true_eq_false,
    Bool.false_eq_true, ite_false, ite_true]

theorem C9_empty_text_503_witness :
    handle_prompt init_app_data (some "hello") (some "KEY_A") (some "KEY_B")
        (fun key => if key == "KEY_A" then ModelOutcome.rateLimited
                    else ModelOutcome.success "") =
      ⟨high_demand_message, 503⟩ :=
  C9_empty_text_503 init_app_data (some "hello") (some "KEY_A") (some "KEY_B")
    (fun key => if key == "KEY_A" then ModelOutcome.rateLimited
                else ModelOutcome.success "")
    (by decide) ["KEY_A"] "KEY_B" [] (by decide)
    (by intro j hj; simp at hj; rw [hj]; rfl) (by decide)

/-- Claim C4: for admin and challenge login, a missing or empty password
gives status 400; a password matching the respective stored hash gives
success true with status 200; any other non-empty password gives success
false with status 401. -/
theorem C4_login_cases (st : AppData) (p : Option String) :
    (truthy p = false →
      admin_login st p = ⟨false, "Password is required.", 400⟩ ∧
      challenge_login st p = ⟨false, "Password is required.", 400⟩) ∧
    (∀ s : String, p = some s → s ≠ "" →
      (check_password_hash st.admin_password_hash s = true →
        (admin_login st p).success = true ∧ (admin_login st p).status = 200) ∧
      (check_password_hash st.admin_password_hash s = false →
        (admin_login st p).success = false ∧ (admin_login st p).status = 401) ∧
      (check_password_hash st.challenge_password_hash s = true →
        (challenge_login st p).success = true ∧ (challenge_login st p).status = 200) ∧
      (check_password_hash st.challenge_password_hash s = false →
        (challenge_login st p).success = false ∧ (challenge_login st p).status = 401)) := by
  constructor
  · intro h
    simp [admin_login, challenge_login, h]
  · rintro s rfl hs
    have ht : truthy (some s) = true := (truthy_some_iff s).mpr hs
    refine ⟨?_, ?_, ?_, ?_⟩ <;> intro hc <;>
      simp [admin_login, challenge_login, ht, hc]

theorem C4_login_cases_witness :
    admin_login init_app_data none = ⟨false, "Password is required.", 400⟩ ∧
    (admin_login init_app_data (some "admin123")).success = true ∧
    (admin_login init_app_data (some "admin123")).status = 200 ∧
    (challenge_login init_app_data (some "challenge123")).success = true ∧
    (challenge_login init_app_data (some "challenge123")).status = 200 ∧
    (admin_login init_app_data (some "wrongpass")).success = false ∧
    (admin_login init_app_data (some "wrongpass")).status = 401 := by
  refine ⟨?_, ?_, ?_, ?_, ?_, ?_, ?_⟩
  · exact ((C4_login_cases init_app_data none).1 rfl).1
  · exact (((C4_login_cases init_app_data (some "admin123")).2 "admin123" rfl
      (by decide)).1 (by decide)).1
  · exact (((C4_login_cases init_app_data (some "admin123")).2 "admin123" rfl
      (by decide)).1 (by decide)).2
  · exact (((C4_login_cases init_app_data (some "challenge123")).2 "challenge123" rfl
      (by decide)).2.2.1 (by decide)).1
  · exact (((C4_login_cases init_app_data (some "challenge123")).2 "challenge123" rfl
      (by decide)).2.2.1 (by decide)).2
  · exact (((C4_login_cases init_app_data (some "wrongpass")).2 "wrongpass" rfl
      (by decide)).2.1 (by decide)).1
  · exact (((C4_login_cases init_app_data (some "wrongpass")).2 "wrongpass" rfl
      (by decide)).2.1 (by decide)).2

/-- Claim C5: verify-secret always returns status 200, and its success flag
is true exactly when the submitted string equals the current in-memory
secret. -/
theorem C5_verify_secret (st : AppData) (submitted : Option String) :
    (verify_secret st submitted).status = 200 ∧
    ((verify_secret st submitted).success = true ↔
      submitted = some (current_secret st)) := by
  unfold verify_secret current_secret
  by_cases h : submitted = some st.secret_key <;> simp [h]

/-- Claim C6: an update providing only a non-empty secret changes
`current_secret` to it and leaves the challenge password hash and the admin
password hash unchanged; symmetrically, an update providing only a
(non-empty) password changes the challenge password hash to that password's
hash and leaves the secret and the admin password hash unchanged. -/
theorem C6_update_frame (st : AppData) :
    (∀ s : String, s ≠ "" →
      current_secret (update_config st (some s) none).1 = s ∧
      (update_config st (some s) none).1.challenge_password_hash =
        st.challenge_password_hash ∧
      (update_config st (some s) none).1.admin_password_hash =
        st.admin_password_hash) ∧
    (∀ p : String, p ≠ "" →
      (update_config st none (some p)).1.challenge_password_hash =
        generate_password_hash p ∧
      current_secret (update_config st none (some p)).1 = current_secret st ∧
      (update_config st none (some p)).1.admin_password_hash =
        st.admin_password_hash) := by
  constructor
  · intro s hs
    simp [update_config, current_secret, truthy, hs]
  · intro p hp
    simp [update_config, current_secret, truthy, hp]

theorem C6_update_frame_witness :
    current_secret (update_config init_app_data (some "NEW_SECRET") none).1 =
        "NEW_SECRET" ∧
    (update_config init_app_data (some "NEW_SECRET") none).1.challenge_password_hash =
        init_app_data.challenge_password_hash ∧
    (update_config init_app_data none (some "newpass")).1.challenge_password_hash =
        generate_password_hash "newpass" ∧
    current_secret (update_config init_app_data none (some "newpass")).1 =
        current_secret init_app_data := by
  refine ⟨?_, ?_, ?_, ?_⟩
  · exact ((C6_update_frame init_app_data).1 "NEW_SECRET" (by decide)).1
  · exact ((C6_update_frame init_app_data).1 "NEW_SECRET" (by decide)).2.1
  · exact ((C6_update_frame init_app_data).2 "newpass" (by decide)).1
  · exact ((C6_update_frame init_app_data).2 "newpass" (by decide)).2.1

/-- Claim C7: applying the same config update twice in a row leaves the
store (all three fields, the challenge password hash included) and the
response exactly as applying it once. -/
theorem C7_update_idempotent (st : AppData) (secret password : Option String) :
    update_config (update_config st secret password).1 secret password =
      update_config st secret password := by
  unfold update_config
  by_cases hs : truthy secret <;> by_cases hp : truthy password <;> simp [hs, hp]

/-- Claim C10: a config update whose password field is present but empty
leaves the challenge password hash unchanged, an update whose secret field
is present but empty leaves the secret unchanged, and both still return
success true with status 200. -/
theorem C10_empty_fields_noop (st : AppData) (sec pw : Option String) :
    (update_config st sec (some "")).1.challenge_password_hash =
        st.challenge_password_hash ∧
    current_secret (update_config st (some "") pw).1 = current_secret st ∧
    (update_config st sec (some "")).2 =
        ⟨true, "Configuration updated successfully.", 200⟩ ∧
    (update_config st (some "") pw).2 =
        ⟨true, "Configuration updated successfully.", 200⟩ := by
  have he : truthy (some "") = false := rfl
  refine ⟨?_, ?_, rfl, rfl⟩
  · by_cases hs : truthy sec <;> simp [update_config, he, hs]
  · by_cases hp : truthy pw <;> simp [update_config, current_secret, he, hp]
